import Mathlib

/-!
Verification of the core logic of an MCP server for a remote notes service.

Part 1 models the conditional-update (optimistic concurrency) protocol of
`src/client/notes.ts` (`updateNoteWithRetry`).  Part 2 models the
request/tool-call analytics aggregate of `src/http-server.ts`
(`trackRequest`, `trackToolCall`, the `/analytics` summary, and snapshot
load/save).

Modelling conventions:
- A thrown JavaScript value is a `Thrown`: `isError` records whether it is an
  `Error` instance (a thrown `null` is `⟨false, ""⟩`), `message` its message.
- The remote service is an oracle `Service : Nat → Req → Resp` giving the
  response to the k-th outbound request of a run; the protocol threads the
  call index and returns the trace of requests it issued, so that call counts
  and orderings can be stated.
- JavaScript `String.prototype.includes` is modelled by `strContains`,
  `replace(/"/g, '')` by `stripQuotes`.
-/

/-- A note as returned by the service: id, entity tag and fields. -/
structure Note where
  id : Nat
  etag : String
  title : String
  content : String
  category : String
deriving DecidableEq, Repr

/-- A thrown JavaScript value: whether it is an `Error` instance, and its
message (a thrown non-`Error` such as `null` carries `isError = false`). -/
structure Thrown where
  isError : Bool
  message : String
deriving DecidableEq, Repr

/-- An outbound request issued by the client: a conditional PUT with an
`If-Match` header value, or a GET of a note. -/
inductive Req where
  | put (noteId : Nat) (ifMatch : String)
  | get (noteId : Nat)
deriving DecidableEq, Repr

/-- A service response: a note, or a thrown error. -/
inductive Resp where
  | ok (n : Note)
  | err (e : Thrown)
deriving DecidableEq, Repr

instance : DecidableEq (Except Thrown Note) := fun a b =>
  match a, b with
  | Except.ok x, Except.ok y =>
    if h : x = y then Decidable.isTrue (h ▸ rfl)
    else Decidable.isFalse (fun hh => h (Except.ok.inj hh))
  | Except.ok _, Except.error _ =>
    Decidable.isFalse (fun hh => Except.noConfusion hh)
  | Except.error _, Except.ok _ =>
    Decidable.isFalse (fun hh => Except.noConfusion hh)
  | Except.error x, Except.error y =>
    if h : x = y then Decidable.isTrue (h ▸ rfl)
    else Decidable.isFalse (fun hh => h (Except.error.inj hh))

/-- The remote service as an oracle: the response it gives to the k-th
outbound request of a run. -/
def Service : Type := Nat → Req → Resp

/-- Does the character list `hs` start with `needle`? -/
def listStartsWith : List Char → List Char → Bool
  | _, [] => true
  | [], _ :: _ => false
  | a :: as, b :: bs => a == b && listStartsWith as bs

/-- Does the character list `hs` contain `needle` as a contiguous run? -/
def listHasSub : List Char → List Char → Bool
  | [], needle => needle.isEmpty
  | h :: t, needle => listStartsWith (h :: t) needle || listHasSub t needle

/-- JavaScript `s.includes(sub)`: substring containment on strings. -/
def strContains (s sub : String) : Bool :=
  listHasSub s.toList sub.toList

/-- JavaScript `etag.replace(/"/g, '')`: remove every double-quote character. -/
def stripQuotes (s : String) : String :=
  ⟨s.toList.filter (fun c => !(c == '"'))⟩

/-- The test at `notes.ts:65`/`notes.ts:75`: the thrown value is an `Error`
instance and its message contains the substring `412`. -/

def is412 (e : Thrown) : Bool :=
  e.isError && strContains e.message "412"

/-- The ordered candidate `If-Match` encodings built at `notes.ts:51`:
the tag as given, the tag wrapped in double quotes, the tag with all
double quotes removed. -/
def etagFormats (etag : String) : List String :=
  [etag, "\"" ++ etag ++ "\"", stripQuotes etag]

/-- The encoding loop of `updateNoteWithRetry` (`notes.ts:54-71`): try a PUT
with each candidate encoding in order, short-circuiting on first success;
a non-412 error aborts the loop immediately; when the list is exhausted the
last caught error is rethrown (`throw lastError`).  Returns the result, the
next call index, and the trace of requests issued. -/
def tryFormats (svc : Service) (noteId : Nat) :
    List String → Nat → Option Thrown → Except Thrown Note × Nat × List Req
  | [], k, lastError => (Except.error (lastError.getD ⟨false, ""⟩), k, [])
  | f :: rest, k, _ =>
    match svc k (Req.put noteId f) with
    | Resp.ok n => (Except.ok n, k + 1, [Req.put noteId f])
    | Resp.err e =>
      if is412 e then
        match tryFormats svc noteId rest (k + 1) (some e) with
        | (r, k2, tr) => (r, k2, Req.put noteId f :: tr)
      else
        (Except.error e, k + 1, [Req.put noteId f])

/-- `updateNoteWithRetry` (`notes.ts:41-86`).  The encoding loop runs first;
on an error `e` that is a 412 with `retryCount = 0`, the note is re-fetched
and the update retried once with the fresh tag and `retryCount = 1`.  The
`catch (refreshError)` at `notes.ts:79` catches only the awaited
`getNote` rejection (then the original error `e` is rethrown): the retry at
`notes.ts:78` is returned WITHOUT `await`, so its promise is adopted after
control has left the try/catch and its outcome — success or rejection —
propagates to the caller unchanged. -/
def updateNoteWithRetry (svc : Service) (noteId : Nat) (etag : String)
    (retryCount : Nat) (k : Nat) : Except Thrown Note × Nat × List Req :=
  match tryFormats svc noteId (etagFormats etag) k none with
  | (Except.ok n, k1, tr1) => (Except.ok n, k1, tr1)
  | (Except.error e, k1, tr1) =>
    if h : is412 e = true ∧ retryCount = 0 then
      match svc k1 (Req.get noteId) with
      | Resp.ok fresh =>
        match updateNoteWithRetry svc noteId fresh.etag 1 (k1 + 1) with
        | (r2, k2, tr2) => (r2, k2, tr1 ++ Req.get noteId :: tr2)
      | Resp.err _ => (Except.error e, k1 + 1, tr1 ++ [Req.get noteId])
    else
      (Except.error e, k1, tr1)
termination_by 1 - retryCount
decreasing_by
  obtain ⟨-, h2⟩ := h
  omega

/-- `updateNote` (`notes.ts:31-39`): the public entry point delegates to
`updateNoteWithRetry` with `retryCount = 0`; the call index starts at 0. -/
def updateNote (svc : Service) (noteId : Nat) (etag : String) :
    Except Thrown Note × Nat × List Req :=
  updateNoteWithRetry svc noteId etag 0 0

/-- A service used to test error propagation: the first three PUTs (call
indices 0-2) are rejected with a 412, the GET succeeds with a fresh note
whose tag is `fresh`, and every later PUT fails with an HTTP 500 error. -/
def svcC1 : Service := fun k r =>
  match r with
  | Req.get _ => Resp.ok ⟨7, "fresh", "A", "x", "c"⟩
  | Req.put _ _ =>
    if k ≤ 2 then Resp.err ⟨true, "HTTP 412 Precondition Failed"⟩
    else Resp.err ⟨true, "HTTP 500 Internal Server Error"⟩

/-- A service whose two logical attempts fail with distinguishable 412
errors: the PUTs at call indices 0-2 are rejected with a 412 naming
`tag v1`, the GET succeeds with a fresh note whose tag is `fresh`, and
every later PUT is rejected with a 412 naming `tag v2`. -/
def svcC4 : Service := fun k r =>
  match r with
  | Req.get _ => Resp.ok ⟨7, "fresh", "A", "x", "c"⟩
  | Req.put _ _ =>
    if k ≤ 2 then Resp.err ⟨true, "HTTP 412 Precondition Failed (tag v1)"⟩
    else Resp.err ⟨true, "HTTP 412 Precondition Failed (tag v2)"⟩

/-- Is a request an update attempt (a conditional PUT)? -/
def Req.isPut : Req → Bool
  | Req.put _ _ => true
  | Req.get _ => false

/-- Is a request a re-fetch (a GET)? -/
def Req.isGet : Req → Bool
  | Req.put _ _ => false
  | Req.get _ => true

/-- One entry of the recent-tool-call ring (`http-server.ts:49`). -/
structure ToolCallEntry where
  tool : String
  timestamp : String
  clientIp : String
deriving DecidableEq, Repr

/-- The process-wide analytics aggregate (`http-server.ts:42-53`).
JavaScript `Record<string, number>` objects are modelled as association
lists in key insertion order. -/
structure Analytics where
  serverStartTime : String
  totalRequests : Nat
  totalToolCalls : Nat
  requestsByMethod : List (String × Nat)
  requestsByEndpoint : List (String × Nat)
  toolCalls : List (String × Nat)
  recentToolCalls : List ToolCallEntry
  clientsByIp : List (String × Nat)
  clientsByUserAgent : List (String × Nat)
  hourlyRequests : List (String × Nat)
deriving DecidableEq, Repr

/-- `defaultAnalytics` (`http-server.ts:55-66`): the zero-valued aggregate.
The start time is the clock reading at module initialisation, passed in. -/
def defaultAnalytics (startTime : String) : Analytics :=
  { serverStartTime := startTime, totalRequests := 0, totalToolCalls := 0,
    requestsByMethod := [], requestsByEndpoint := [], toolCalls := [],
    recentToolCalls := [], clientsByIp := [], clientsByUserAgent := [],
    hourlyRequests := [] }

/-- Reading a counter: `m[key] || 0`. -/
def getCount (m : List (String × Nat)) (key : String) : Nat :=
  match m.find? (fun p => p.1 == key) with
  | some p => p.2
  | none => 0

/-- `m[key] = (m[key] || 0) + 1` on a JavaScript object: bump the existing
key in place, else append the new key (JavaScript objects preserve string-key
insertion order). -/
def bumpCount (m : List (String × Nat)) (key : String) :
    List (String × Nat) :=
  if m.any (fun p => p.1 == key) then
    m.map (fun p => if p.1 == key then (p.1, p.2 + 1) else p)
  else
    m ++ [(key, 1)]

/-- The fields of an inbound HTTP request that `trackRequest` reads: the
method, the `x-forwarded-for` and `user-agent` headers (absent = `none`),
and Express's `req.ip` (which may be undefined). -/
structure HttpReq where
  method : String
  xForwardedFor : Option String
  ip : Option String
  userAgent : Option String

/-- `(req.headers['x-forwarded-for'] as string)?.split(',')[0] || req.ip ||
'unknown'` (`http-server.ts:129`); the empty string is falsy. -/
def clientIpOf (req : HttpReq) : String :=
  let fromHeader :=
    match req.xForwardedFor with
    | some s => (s.splitOn ",").headD ""
    | none => ""
  if fromHeader ≠ "" then fromHeader
  else
    match req.ip with
    | some s => if s ≠ "" then s else "unknown"
    | none => "unknown"

/-- `req.headers['user-agent'] || 'unknown'` then
`userAgent.split('/')[0] || userAgent.substring(0, 30)`
(`http-server.ts:132-133`).  JavaScript `substring` counts UTF-16 units; we
count characters, which agrees on ASCII. -/
def shortAgentOf (req : HttpReq) : String :=
  let userAgent :=
    match req.userAgent with
    | some s => if s ≠ "" then s else "unknown"
    | none => "unknown"
  let first := (userAgent.splitOn "/").headD ""
  if first ≠ "" then first else userAgent.take 30

/-- The hour bucket `new Date().toISOString().substring(0, 13) + ':00'`
(`http-server.ts:136`); the current ISO timestamp is passed in. -/
def hourKeyOf (now : String) : String := now.take 13 ++ ":00"

/-- `trackRequest` (`http-server.ts:124-138`): synchronously increment the
total-request counter and the method, endpoint, client-IP, user-agent and
hour-bucket counters. -/
def trackRequest (a : Analytics) (req : HttpReq) (endpoint : String)
    (now : String) : Analytics :=
  { a with
    totalRequests := a.totalRequests + 1,
    requestsByMethod := bumpCount a.requestsByMethod req.method,
    requestsByEndpoint := bumpCount a.requestsByEndpoint endpoint,
    clientsByIp := bumpCount a.clientsByIp (clientIpOf req),
    clientsByUserAgent := bumpCount a.clientsByUserAgent (shortAgentOf req),
    hourlyRequests := bumpCount a.hourlyRequests (hourKeyOf now) }

/-- `trackToolCall` (`http-server.ts:140-151`): increment the totals, push
the call onto the front of the recent ring (`unshift`), and drop the oldest
entry (`pop`) when the ring exceeds 100 entries. -/
def trackToolCall (a : Analytics) (toolName clientIp now : String) :
    Analytics :=
  let ring : List ToolCallEntry := ⟨toolName, now, clientIp⟩ ::
    a.recentToolCalls
  { a with
    totalToolCalls := a.totalToolCalls + 1,
    toolCalls := bumpCount a.toolCalls toolName,
    recentToolCalls := if ring.length > 100 then ring.dropLast else ring }

/-- The ring entry built from a `(toolName, clientIp, now)` call triple. -/
def toolEntry (c : String × String × String) : ToolCallEntry :=
  ⟨c.1, c.2.2, c.2.1⟩

/-- The aggregate view returned by the `/analytics` endpoint
(`http-server.ts:239-278`), without the clock-derived `uptime` field. -/
structure AnalyticsSummary where
  totalRequests : Nat
  totalToolCalls : Nat
  uniqueClients : Nat
  byMethod : List (String × Nat)
  byEndpoint : List (String × Nat)
  byTool : List (String × Nat)
  clientsByIp : List (String × Nat)
  clientsByUserAgent : List (String × Nat)
  hourlyRequests : List (String × Nat)
  recentToolCalls : List ToolCallEntry

/-- Comparator `([, a], [, b]) => b - a`: sort entries descending by count. -/
def byCountDesc (x y : String × Nat) : Bool := decide (y.2 ≤ x.2)

/-- Comparator `([a], [b]) => b.localeCompare(a)`: sort entries descending by
key; `localeCompare` is modelled as lexicographic string comparison. -/
def byKeyDesc (x y : String × Nat) : Bool := decide (y.1 ≤ x.1)

/-- The `/analytics` summary (`http-server.ts:242-277`): tools sorted by
descending count; the 20 largest client-IP entries sorted by descending
count; the 24 most recent hour buckets in chronological order; the 20 most
recent ring entries.  The JavaScript `reduce` into a fresh object preserves
this order for the non-numeric string keys involved. -/
def summarize (a : Analytics) : AnalyticsSummary :=
  { totalRequests := a.totalRequests,
    totalToolCalls := a.totalToolCalls,
    uniqueClients := a.clientsByIp.length,
    byMethod := a.requestsByMethod,
    byEndpoint := a.requestsByEndpoint,
    byTool := a.toolCalls.mergeSort byCountDesc,
    clientsByIp := (a.clientsByIp.mergeSort byCountDesc).take 20,
    clientsByUserAgent := a.clientsByUserAgent,
    hourlyRequests := ((a.hourlyRequests.mergeSort byKeyDesc).take 24).reverse,
    recentToolCalls := a.recentToolCalls.take 20 }

/-- The outcome of the snapshot read at startup: the file is absent, the
read or parse throws, or a parsed aggregate is obtained. -/
inductive SnapshotRead where
  | absent
  | failure (err : String)
  | ok (a : Analytics)

/-- `loadAnalytics` (`http-server.ts:69-81`): return the parsed snapshot
when the file exists and parses; on a missing file or any read/parse error,
fall back to the zero-valued default (the catch only logs a warning). -/
def loadAnalytics (startTime : String) : SnapshotRead → Analytics
  | SnapshotRead.absent => defaultAnalytics startTime
  | SnapshotRead.failure _ => defaultAnalytics startTime
  | SnapshotRead.ok a => a

/-- `saveAnalytics` (`http-server.ts:84-94`): attempt the snapshot write;
any thrown error is caught and only logged (`console.warn`), so the
function always returns normally to its caller. -/
def saveAnalytics (writeOutcome : Except String Unit) : Except String Unit :=
  match writeOutcome with
  | Except.ok _ => Except.ok ()
  | Except.error _ => Except.ok ()

theorem updateNoteWithRetry_eq (svc : Service) (noteId : Nat) (etag : String)
    (retryCount : Nat) (k : Nat) :
    updateNoteWithRetry svc noteId etag retryCount k =
      match tryFormats svc noteId (etagFormats etag) k none with
      | (Except.ok n, k1, tr1) => (Except.ok n, k1, tr1)
      | (Except.error e, k1, tr1) =>
        if h : is412 e = true ∧ retryCount = 0 then
          match svc k1 (Req.get noteId) with
          | Resp.ok fresh =>
            match updateNoteWithRetry svc noteId fresh.etag 1 (k1 + 1) with
            | (r2, k2, tr2) => (r2, k2, tr1 ++ Req.get noteId :: tr2)
          | Resp.err _ => (Except.error e, k1 + 1, tr1 ++ [Req.get noteId])
        else
          (Except.error e, k1, tr1) := by
  rw [updateNoteWithRetry]

example : stripQuotes "a\"b\"c" = "abc" := by decide

example : strContains "HTTP 412 Precondition Failed" "412" = true := by decide

example : strContains "HTTP 500" "412" = false := by decide

example : etagFormats "t" = ["t", "\"t\"", "t"] := by decide

/-- C2: order of encodings is deterministic (raw, quoted, quote-stripped);
a service that rejects the raw form with a 412 but accepts the quoted form
makes the update succeed on the second PUT, with no re-fetch and no further
requests. -/
theorem updateNote_succeeds_on_quoted (svc : Service) (noteId : Nat)
    (etag : String) (e : Thrown) (n : Note) (k : Nat)
    (h1 : svc k (Req.put noteId etag) = Resp.err e)
    (h412 : is412 e = true)
    (h2 : svc (k + 1) (Req.put noteId ("\"" ++ etag ++ "\"")) = Resp.ok n) :
    etagFormats etag = [etag, "\"" ++ etag ++ "\"", stripQuotes etag] ∧
    updateNoteWithRetry svc noteId etag 0 k =
      (Except.ok n, k + 2,
        [Req.put noteId etag, Req.put noteId ("\"" ++ etag ++ "\"")]) := by
  refine ⟨rfl, ?_⟩
  rw [updateNoteWithRetry_eq]
  simp [tryFormats, etagFormats, h1, h2, h412]

/-- Witness for C2 at a concrete service: the raw tag `t` is rejected with a
412, the quoted tag is accepted, and the run returns the note after exactly
the two PUT requests. -/
theorem updateNote_succeeds_on_quoted_witness :
    updateNoteWithRetry
      (fun _ r =>
        if r = Req.put 1 "\"t\"" then
          Resp.ok ⟨1, "v2", "A", "x", "c"⟩
        else Resp.err ⟨true, "HTTP 412 Precondition Failed"⟩)
      1 "t" 0 0 =
      (Except.ok ⟨1, "v2", "A", "x", "c"⟩, 2,
        [Req.put 1 "t", Req.put 1 "\"t\""]) :=
  (updateNote_succeeds_on_quoted
    (fun _ r =>
      if r = Req.put 1 "\"t\"" then
        Resp.ok ⟨1, "v2", "A", "x", "c"⟩
      else Resp.err ⟨true, "HTTP 412 Precondition Failed"⟩)
    1 "t" ⟨true, "HTTP 412 Precondition Failed"⟩ ⟨1, "v2", "A", "x", "c"⟩ 0
    (by decide) (by decide) (by decide)).2

/-- C10: on a tag with no embedded double quote, quote-stripping is the
identity, so the first and third candidate encodings coincide and at most
two distinct encodings exist. -/
theorem etagFormats_dup_of_no_quote (etag : String)
    (h : ∀ c ∈ etag.toList, c ≠ '"') :
    stripQuotes etag = etag ∧
    etagFormats etag = [etag, "\"" ++ etag ++ "\"", etag] ∧
    (etagFormats etag).toFinset.card ≤ 2 := by
  have hs : stripQuotes etag = etag := by
    unfold stripQuotes
    have hf : etag.toList.filter (fun c => !(c == '"')) = etag.toList := by
      rw [List.filter_eq_self]
      intro a ha
      simpa using h a ha
    rw [hf]
    cases etag
    rfl
  refine ⟨hs, ?_, ?_⟩
  · unfold etagFormats
    rw [hs]
  · unfold etagFormats
    rw [hs]
    have hsub : ([etag, "\"" ++ etag ++ "\"", etag] : List String).toFinset ⊆
        {etag, "\"" ++ etag ++ "\""} := by
      intro x hx
      simp only [List.toFinset_cons, List.toFinset_nil, Finset.mem_insert,
        Finset.mem_singleton] at hx ⊢
      tauto
    refine le_trans (Finset.card_le_card hsub) ?_
    refine le_trans (Finset.card_insert_le _ _) ?_
    simp

/-- Witness for C10 at the concrete quote-free tag `abc123`. -/
theorem etagFormats_dup_of_no_quote_witness :
    stripQuotes "abc123" = "abc123" ∧
    etagFormats "abc123" = ["abc123", "\"abc123\"", "abc123"] ∧
    (etagFormats "abc123").toFinset.card ≤ 2 :=
  etagFormats_dup_of_no_quote "abc123" (by decide)

/-- With `retryCount = 1` the recovery branch is never taken: the call is
exactly the encoding loop, successes and errors propagating unchanged. -/
theorem updateNoteWithRetry_one (svc : Service) (noteId : Nat) (etag : String)
    (k : Nat) :
    updateNoteWithRetry svc noteId etag 1 k =
      tryFormats svc noteId (etagFormats etag) k none := by
  rw [updateNoteWithRetry_eq]
  obtain ⟨r, k1, tr1⟩ := tryFormats svc noteId (etagFormats etag) k none
  cases r <;> simp

/-- If the initial attempt exhausts all three encodings with 412 errors and
the re-fetch succeeds, the run continues with the post-refresh encoding
loop and returns its outcome UNCHANGED: the retry at `notes.ts:78` is
returned without `await`, so `catch (refreshError)` cannot intercept it. -/
theorem update_recovery_retry (svc : Service) (noteId : Nat) (etag : String)
    (k : Nat) (e0 e1 e2 : Thrown) (fresh : Note) (r2 : Except Thrown Note)
    (k2 : Nat) (tr2 : List Req)
    (h0 : svc k (Req.put noteId etag) = Resp.err e0) (h0' : is412 e0 = true)
    (h1 : svc (k + 1) (Req.put noteId ("\"" ++ etag ++ "\"")) = Resp.err e1)
    (h1' : is412 e1 = true)
    (h2 : svc (k + 2) (Req.put noteId (stripQuotes etag)) = Resp.err e2)
    (h2' : is412 e2 = true)
    (hget : svc (k + 3) (Req.get noteId) = Resp.ok fresh)
    (hretry : tryFormats svc noteId (etagFormats fresh.etag) (k + 3 + 1) none =
      (r2, k2, tr2)) :
    updateNoteWithRetry svc noteId etag 0 k =
      (r2, k2,
        [Req.put noteId etag, Req.put noteId ("\"" ++ etag ++ "\""),
          Req.put noteId (stripQuotes etag), Req.get noteId] ++ tr2) := by
  have ht : tryFormats svc noteId (etagFormats etag) k none =
      (Except.error e2, k + 3,
        [Req.put noteId etag, Req.put noteId ("\"" ++ etag ++ "\""),
          Req.put noteId (stripQuotes etag)]) := by
    simp [tryFormats, etagFormats, h0, h0', h1, h1', h2, h2', Nat.add_assoc]
  rw [updateNoteWithRetry_eq]
  simp [ht, h2', hget, updateNoteWithRetry_one, hretry]

/-- If the initial attempt exhausts all three encodings with 412 errors and
the re-fetch itself fails with any error `g`, the surfaced error is `e2` and
`g` is discarded. -/
theorem update_recovery_refetch_err (svc : Service) (noteId : Nat)
    (etag : String) (k : Nat) (e0 e1 e2 g : Thrown)
    (h0 : svc k (Req.put noteId etag) = Resp.err e0) (h0' : is412 e0 = true)
    (h1 : svc (k + 1) (Req.put noteId ("\"" ++ etag ++ "\"")) = Resp.err e1)
    (h1' : is412 e1 = true)
    (h2 : svc (k + 2) (Req.put noteId (stripQuotes etag)) = Resp.err e2)
    (h2' : is412 e2 = true)
    (hget : svc (k + 3) (Req.get noteId) = Resp.err g) :
    updateNoteWithRetry svc noteId etag 0 k =
      (Except.error e2, k + 3 + 1,
        [Req.put noteId etag, Req.put noteId ("\"" ++ etag ++ "\""),
          Req.put noteId (stripQuotes etag), Req.get noteId]) := by
  have ht : tryFormats svc noteId (etagFormats etag) k none =
      (Except.error e2, k + 3,
        [Req.put noteId etag, Req.put noteId ("\"" ++ etag ++ "\""),
          Req.put noteId (stripQuotes etag)]) := by
    simp [tryFormats, etagFormats, h0, h0', h1, h1', h2, h2', Nat.add_assoc]
  rw [updateNoteWithRetry_eq]
  simp [ht, h2', hget]

/-- C1: a non-412 error raised during any encoding attempt of EITHER
logical attempt propagates immediately and unchanged: that same error is
surfaced and no further encoding attempts, re-fetch or recursion occur.
The six implications enumerate every reachable encoding position: the three
of the initial attempt, and — after an initial attempt exhausted by 412s
and a successful re-fetch — the three of the post-refresh attempt (whose
outcome the un-awaited return at `notes.ts:78` passes through as-is). -/
theorem updateNote_non412_aborts (svc : Service) (noteId : Nat)
    (etag : String) (k : Nat) (f : Thrown) (hnon : is412 f = false) :
    ((svc k (Req.put noteId etag) = Resp.err f →
      updateNoteWithRetry svc noteId etag 0 k =
        (Except.error f, k + 1, [Req.put noteId etag])) ∧
    (∀ e0, svc k (Req.put noteId etag) = Resp.err e0 → is412 e0 = true →
      svc (k + 1) (Req.put noteId ("\"" ++ etag ++ "\"")) = Resp.err f →
      updateNoteWithRetry svc noteId etag 0 k =
        (Except.error f, k + 2,
          [Req.put noteId etag, Req.put noteId ("\"" ++ etag ++ "\"")])) ∧
    (∀ e0 e1, svc k (Req.put noteId etag) = Resp.err e0 → is412 e0 = true →
      svc (k + 1) (Req.put noteId ("\"" ++ etag ++ "\"")) = Resp.err e1 →
      is412 e1 = true →
      svc (k + 2) (Req.put noteId (stripQuotes etag)) = Resp.err f →
      updateNoteWithRetry svc noteId etag 0 k =
        (Except.error f, k + 3,
          [Req.put noteId etag, Req.put noteId ("\"" ++ etag ++ "\""),
            Req.put noteId (stripQuotes etag)]))) ∧
    (∀ e0 e1 e2 fresh,
      svc k (Req.put noteId etag) = Resp.err e0 → is412 e0 = true →
      svc (k + 1) (Req.put noteId ("\"" ++ etag ++ "\"")) = Resp.err e1 →
      is412 e1 = true →
      svc (k + 2) (Req.put noteId (stripQuotes etag)) = Resp.err e2 →
      is412 e2 = true →
      svc (k + 3) (Req.get noteId) = Resp.ok fresh →
      ((svc (k + 4) (Req.put noteId fresh.etag) = Resp.err f →
        updateNoteWithRetry svc noteId etag 0 k =
          (Except.error f, k + 5,
            [Req.put noteId etag, Req.put noteId ("\"" ++ etag ++ "\""),
              Req.put noteId (stripQuotes etag), Req.get noteId,
              Req.put noteId fresh.etag])) ∧
      (∀ g0, svc (k + 4) (Req.put noteId fresh.etag) = Resp.err g0 →
        is412 g0 = true →
        svc (k + 5) (Req.put noteId ("\"" ++ fresh.etag ++ "\"")) =
          Resp.err f →
        updateNoteWithRetry svc noteId etag 0 k =
          (Except.error f, k + 6,
            [Req.put noteId etag, Req.put noteId ("\"" ++ etag ++ "\""),
              Req.put noteId (stripQuotes etag), Req.get noteId,
              Req.put noteId fresh.etag,
              Req.put noteId ("\"" ++ fresh.etag ++ "\"")])) ∧
      (∀ g0 g1, svc (k + 4) (Req.put noteId fresh.etag) = Resp.err g0 →
        is412 g0 = true →
        svc (k + 5) (Req.put noteId ("\"" ++ fresh.etag ++ "\"")) =
          Resp.err g1 →
        is412 g1 = true →
        svc (k + 6) (Req.put noteId (stripQuotes fresh.etag)) =
          Resp.err f →
        updateNoteWithRetry svc noteId etag 0 k =
          (Except.error f, k + 7,
            [Req.put noteId etag, Req.put noteId ("\"" ++ etag ++ "\""),
              Req.put noteId (stripQuotes etag), Req.get noteId,
              Req.put noteId fresh.etag,
              Req.put noteId ("\"" ++ fresh.etag ++ "\""),
              Req.put noteId (stripQuotes fresh.etag)])))) := by
  constructor
  · refine ⟨fun h0 => ?_, fun e0 h0 h0' h1 => ?_,
      fun e0 e1 h0 h0' h1 h1' h2 => ?_⟩
    · rw [updateNoteWithRetry_eq]
      simp [tryFormats, etagFormats, h0, hnon]
    · rw [updateNoteWithRetry_eq]
      simp [tryFormats, etagFormats, h0, h0', h1, hnon, Nat.add_assoc]
    · rw [updateNoteWithRetry_eq]
      simp [tryFormats, etagFormats, h0, h0', h1, h1', h2, hnon,
        Nat.add_assoc]
  · intro e0 e1 e2 fresh h0 h0' h1 h1' h2 h2' hget
    refine ⟨fun hf => ?_, fun g0 hg0 hg0' hf => ?_,
      fun g0 g1 hg0 hg0' hg1 hg1' hf => ?_⟩
    · have hr : tryFormats svc noteId (etagFormats fresh.etag) (k + 3 + 1)
          none = (Except.error f, k + 5, [Req.put noteId fresh.etag]) := by
        simp [tryFormats, etagFormats, hf, hnon, Nat.add_assoc]
      have h := update_recovery_retry svc noteId etag k e0 e1 e2 fresh
        (Except.error f) (k + 5) [Req.put noteId fresh.etag]
        h0 h0' h1 h1' h2 h2' hget hr
      simpa using h
    · have hr : tryFormats svc noteId (etagFormats fresh.etag) (k + 3 + 1)
          none = (Except.error f, k + 6,
            [Req.put noteId fresh.etag,
              Req.put noteId ("\"" ++ fresh.etag ++ "\"")]) := by
        simp [tryFormats, etagFormats, hg0, hg0', hf, hnon, Nat.add_assoc]
      have h := update_recovery_retry svc noteId etag k e0 e1 e2 fresh
        (Except.error f) (k + 6)
        [Req.put noteId fresh.etag, Req.put noteId ("\"" ++ fresh.etag ++ "\"")]
        h0 h0' h1 h1' h2 h2' hget hr
      simpa using h
    · have hr : tryFormats svc noteId (etagFormats fresh.etag) (k + 3 + 1)
          none = (Except.error f, k + 7,
            [Req.put noteId fresh.etag,
              Req.put noteId ("\"" ++ fresh.etag ++ "\""),
              Req.put noteId (stripQuotes fresh.etag)]) := by
        simp [tryFormats, etagFormats, hg0, hg0', hg1, hg1', hf, hnon,
          Nat.add_assoc]
      have h := update_recovery_retry svc noteId etag k e0 e1 e2 fresh
        (Except.error f) (k + 7)
        [Req.put noteId fresh.etag,
          Req.put noteId ("\"" ++ fresh.etag ++ "\""),
          Req.put noteId (stripQuotes fresh.etag)]
        h0 h0' h1 h1' h2 h2' hget hr
      simpa using h

/-- Witness for C1 at `svcC1`: the initial attempt is exhausted by 412s,
the re-fetch succeeds, and the first post-refresh PUT fails with an HTTP
500 — the run surfaces that same 500 and stops after five requests. -/
theorem updateNote_non412_aborts_witness :
    updateNoteWithRetry svcC1 7 "t" 0 0 =
      (Except.error ⟨true, "HTTP 500 Internal Server Error"⟩, 5,
        [Req.put 7 "t", Req.put 7 "\"t\"", Req.put 7 "t", Req.get 7,
          Req.put 7 "fresh"]) :=
  (((updateNote_non412_aborts svcC1 7 "t" 0
      ⟨true, "HTTP 500 Internal Server Error"⟩ (by decide)).2
    ⟨true, "HTTP 412 Precondition Failed"⟩
    ⟨true, "HTTP 412 Precondition Failed"⟩
    ⟨true, "HTTP 412 Precondition Failed"⟩
    ⟨7, "fresh", "A", "x", "c"⟩
    (by decide) (by decide) (by decide) (by decide) (by decide) (by decide)
    (by decide)).1 (by decide))

/-- C4 counterexample: both logical attempts fail with precondition errors,
but with distinguishable messages (`tag v1` for the initial attempt, `tag
v2` for the post-refresh retry).  The run surfaces the retry's own last 412
(`tag v2`), not the original first-attempt error (`tag v1`): the un-awaited
return at `notes.ts:78` lets the retry's rejection bypass
`catch (refreshError)`, refuting the claim that the original error is
surfaced when the post-refresh retry also ends in precondition failure. -/
theorem updateNote_c4_counterexample :
    is412 ⟨true, "HTTP 412 Precondition Failed (tag v1)"⟩ = true ∧
    is412 ⟨true, "HTTP 412 Precondition Failed (tag v2)"⟩ = true ∧
    updateNote svcC4 7 "t" =
      (Except.error ⟨true, "HTTP 412 Precondition Failed (tag v2)"⟩, 7,
        [Req.put 7 "t", Req.put 7 "\"t\"", Req.put 7 "t", Req.get 7,
          Req.put 7 "fresh", Req.put 7 "\"fresh\"", Req.put 7 "fresh"]) ∧
    (updateNote svcC4 7 "t").1 ≠
      Except.error ⟨true, "HTTP 412 Precondition Failed (tag v1)"⟩ := by
  have h := update_recovery_retry svcC4 7 "t" 0
      ⟨true, "HTTP 412 Precondition Failed (tag v1)"⟩
      ⟨true, "HTTP 412 Precondition Failed (tag v1)"⟩
      ⟨true, "HTTP 412 Precondition Failed (tag v1)"⟩
      ⟨7, "fresh", "A", "x", "c"⟩
      (Except.error ⟨true, "HTTP 412 Precondition Failed (tag v2)"⟩) 7
      [Req.put 7 "fresh", Req.put 7 "\"fresh\"", Req.put 7 "fresh"]
      (by decide) (by decide) (by decide) (by decide) (by decide) (by decide)
      (by decide) (by decide)
  refine ⟨by decide, by decide, ?_, ?_⟩
  · rw [updateNote]
    exact h
  · rw [updateNote, h]
    decide

/-- C4 amended: when the initial attempt exhausts the three encodings with
412 errors, the outcome of the recovery cycle is: if the re-fetch itself
fails, the ORIGINAL precondition error `e2` of the first attempt is
surfaced and the refresh error (any `g`) is discarded; if the re-fetch
succeeds and the post-refresh retry again exhausts all encodings with
precondition failures, the surfaced error is the RETRY's own last
precondition failure `f2`, not the first attempt's `e2`. -/
theorem updateNote_recovery_outcome (svc : Service) (noteId : Nat)
    (etag : String) (k : Nat) (e0 e1 e2 : Thrown)
    (h0 : svc k (Req.put noteId etag) = Resp.err e0) (h0' : is412 e0 = true)
    (h1 : svc (k + 1) (Req.put noteId ("\"" ++ etag ++ "\"")) = Resp.err e1)
    (h1' : is412 e1 = true)
    (h2 : svc (k + 2) (Req.put noteId (stripQuotes etag)) = Resp.err e2)
    (h2' : is412 e2 = true) :
    (∀ g, svc (k + 3) (Req.get noteId) = Resp.err g →
      updateNoteWithRetry svc noteId etag 0 k =
        (Except.error e2, k + 4,
          [Req.put noteId etag, Req.put noteId ("\"" ++ etag ++ "\""),
            Req.put noteId (stripQuotes etag), Req.get noteId])) ∧
    (∀ fresh f0 f1 f2, svc (k + 3) (Req.get noteId) = Resp.ok fresh →
      svc (k + 4) (Req.put noteId fresh.etag) = Resp.err f0 →
      is412 f0 = true →
      svc (k + 5) (Req.put noteId ("\"" ++ fresh.etag ++ "\"")) =
        Resp.err f1 →
      is412 f1 = true →
      svc (k + 6) (Req.put noteId (stripQuotes fresh.etag)) = Resp.err f2 →
      is412 f2 = true →
      updateNoteWithRetry svc noteId etag 0 k =
        (Except.error f2, k + 7,
          [Req.put noteId etag, Req.put noteId ("\"" ++ etag ++ "\""),
            Req.put noteId (stripQuotes etag), Req.get noteId,
            Req.put noteId fresh.etag,
            Req.put noteId ("\"" ++ fresh.etag ++ "\""),
            Req.put noteId (stripQuotes fresh.etag)])) := by
  constructor
  · intro g hget
    have h := update_recovery_refetch_err svc noteId etag k e0 e1 e2 g
      h0 h0' h1 h1' h2 h2' hget
    simpa [Nat.add_assoc] using h
  · intro fresh f0 f1 f2 hget hf0 hf0' hf1 hf1' hf2 hf2'
    have hr : tryFormats svc noteId (etagFormats fresh.etag) (k + 3 + 1)
        none =
        (Except.error f2, k + 7,
          [Req.put noteId fresh.etag,
            Req.put noteId ("\"" ++ fresh.etag ++ "\""),
            Req.put noteId (stripQuotes fresh.etag)]) := by
      simp [tryFormats, etagFormats, hf0, hf0', hf1, hf1', hf2, hf2',
        Nat.add_assoc]
    have h := update_recovery_retry svc noteId etag k e0 e1 e2 fresh
      (Except.error f2) (k + 7) _ h0 h0' h1 h1' h2 h2' hget hr
    simpa using h

/-- Witness for the amended C4 at a service that answers every request with
the same 412 error: the re-fetch fails, so the run surfaces the original
412 after the three PUTs and the GET. -/
theorem updateNote_recovery_outcome_witness :
    updateNoteWithRetry
      (fun _ _ => Resp.err ⟨true, "HTTP 412 Precondition Failed"⟩)
      1 "t" 0 0 =
      (Except.error ⟨true, "HTTP 412 Precondition Failed"⟩, 4,
        [Req.put 1 "t", Req.put 1 "\"t\"", Req.put 1 "t", Req.get 1]) :=
  ((updateNote_recovery_outcome
    (fun _ _ => Resp.err ⟨true, "HTTP 412 Precondition Failed"⟩)
    1 "t" 0 ⟨true, "HTTP 412 Precondition Failed"⟩
    ⟨true, "HTTP 412 Precondition Failed"⟩
    ⟨true, "HTTP 412 Precondition Failed"⟩
    (by decide) (by decide) (by decide) (by decide) (by decide)
    (by decide)).1 ⟨true, "HTTP 412 Precondition Failed"⟩ (by decide))

/-- C9: the coordinator classifies a thrown value as a precondition failure
exactly when it is an `Error` whose message contains the substring `412`.
Against a service that answers every request with the same error `e`, the
retry/refresh path is taken precisely when that substring test holds: a
412-classified error leads to three PUTs and a re-fetch, any other error is
surfaced after the single first PUT. -/
theorem updateNote_412_classification (svc : Service) (noteId : Nat)
    (etag : String) (k : Nat) (e : Thrown)
    (hsvc : ∀ j r, svc j r = Resp.err e) :
    is412 e = (e.isError && strContains e.message "412") ∧
    updateNoteWithRetry svc noteId etag 0 k =
      (if is412 e = true then
        (Except.error e, k + 4,
          [Req.put noteId etag, Req.put noteId ("\"" ++ etag ++ "\""),
            Req.put noteId (stripQuotes etag), Req.get noteId])
      else
        (Except.error e, k + 1, [Req.put noteId etag])) := by
  refine ⟨rfl, ?_⟩
  cases hc : is412 e
  · rw [updateNoteWithRetry_eq]
    simp [tryFormats, etagFormats, hsvc, hc]
  · rw [updateNoteWithRetry_eq]
    simp [tryFormats, etagFormats, hsvc, hc, Nat.add_assoc]

/-- Witness for C9: an error whose message merely mentions `412` as part of
a timeout duration is classified as a precondition failure and triggers the
full retry/refresh path. -/
theorem updateNote_412_classification_witness :
    updateNoteWithRetry
      (fun _ _ => Resp.err ⟨true, "read timeout after 412 ms"⟩) 1 "t" 0 0 =
      (Except.error ⟨true, "read timeout after 412 ms"⟩, 4,
        [Req.put 1 "t", Req.put 1 "\"t\"", Req.put 1 "t", Req.get 1]) := by
  have h := (updateNote_412_classification
    (fun _ _ => Resp.err ⟨true, "read timeout after 412 ms"⟩) 1 "t" 0
    ⟨true, "read timeout after 412 ms"⟩ (fun _ _ => rfl)).2
  rw [if_pos (by decide : is412 ⟨true, "read timeout after 412 ms"⟩ = true)]
    at h
  exact h

theorem Req.isGet_eq_false_of_isPut (q : Req) (h : q.isPut = true) :
    q.isGet = false := by
  cases q <;> simp_all [Req.isPut, Req.isGet]

/-- The encoding loop issues at most one request per candidate encoding, and
every request it issues is a PUT. -/
theorem tryFormats_trace (svc : Service) (noteId : Nat) :
    ∀ (formats : List String) (k : Nat) (last : Option Thrown),
      (tryFormats svc noteId formats k last).2.2.length ≤ formats.length ∧
      ∀ q ∈ (tryFormats svc noteId formats k last).2.2, q.isPut = true := by
  intro formats
  induction formats with
  | nil => intro k last; simp [tryFormats]
  | cons f rest ih =>
    intro k last
    simp only [tryFormats]
    cases svc k (Req.put noteId f) with
    | ok n => simp [Req.isPut]
    | err e =>
      cases h412 : is412 e with
      | false =>
        simp only [h412, Bool.false_eq_true, if_false, List.length_cons,
          List.length_nil, List.mem_cons, List.not_mem_nil, or_false]
        constructor
        · omega
        · rintro q rfl
          rfl
      | true =>
        obtain ⟨hlen, hput⟩ := ih (k + 1) (some e)
        simp only [h412, if_true, List.length_cons, List.mem_cons]
        constructor
        · exact Nat.succ_le_succ hlen
        · rintro q (rfl | hq)
          · rfl
          · exact hput q hq

theorem countP_put_bounds (l : List Req) (hl : ∀ q ∈ l, q.isPut = true) :
    l.countP (fun q => q.isPut) ≤ l.length ∧
    l.countP (fun q => q.isGet) = 0 := by
  constructor
  · exact List.countP_le_length _
  · rw [List.countP_eq_zero]
    intro a ha
    rw [Req.isGet_eq_false_of_isPut a (hl a ha)]
    simp

/-- C3: for every behaviour of the remote service, a conditional update
performs at most 6 update (PUT) requests — at most 2 logical attempts of at
most 3 encodings each — at most 1 re-fetch (GET) request, and at most 7
requests in total. -/
theorem Req.isPut_get (m : Nat) : (Req.get m).isPut = false := rfl

theorem Req.isGet_get (m : Nat) : (Req.get m).isGet = true := rfl

/-- C3: for every behaviour of the remote service, a conditional update
performs at most 6 update (PUT) requests — at most 2 logical attempts of at
most 3 encodings each — at most 1 re-fetch (GET) request, and at most 7
requests in total. -/
theorem updateNote_call_bounds (svc : Service) (noteId : Nat) (etag : String)
    (k : Nat) :
    (updateNoteWithRetry svc noteId etag 0 k).2.2.countP
      (fun q => q.isPut) ≤ 6 ∧
    (updateNoteWithRetry svc noteId etag 0 k).2.2.countP
      (fun q => q.isGet) ≤ 1 ∧
    (updateNoteWithRetry svc noteId etag 0 k).2.2.length ≤ 7 := by
  have hb1 := tryFormats_trace svc noteId (etagFormats etag) k none
  rw [updateNoteWithRetry_eq]
  split
  next n k1 tr1 heq =>
    rw [heq] at hb1
    obtain ⟨hl1, hp1⟩ := hb1
    have hl1' : tr1.length ≤ 3 := by simpa [etagFormats] using hl1
    obtain ⟨hc1, hg1⟩ := countP_put_bounds tr1 hp1
    dsimp only
    refine ⟨by omega, by omega, by omega⟩
  next e k1 tr1 heq =>
    rw [heq] at hb1
    obtain ⟨hl1, hp1⟩ := hb1
    have hl1' : tr1.length ≤ 3 := by simpa [etagFormats] using hl1
    obtain ⟨hc1, hg1⟩ := countP_put_bounds tr1 hp1
    split
    · split
      next fresh hget =>
        have hb2 := tryFormats_trace svc noteId (etagFormats fresh.etag)
          (k1 + 1) none
        rw [updateNoteWithRetry_one]
        split
        next r2 k2 tr2 heq2 =>
          rw [heq2] at hb2
          obtain ⟨hl2, hp2⟩ := hb2
          have hl2' : tr2.length ≤ 3 := by simpa [etagFormats] using hl2
          obtain ⟨hc2, hg2⟩ := countP_put_bounds tr2 hp2
          dsimp only
          simp only [List.countP_append, List.countP_cons,
            List.length_append, List.length_cons, Req.isPut_get,
            Req.isGet_get, Bool.false_eq_true, eq_self_iff_true, if_false,
            if_true]
          refine ⟨by omega, by omega, by omega⟩
      next g hget =>
        dsimp only
        simp only [List.countP_append, List.countP_cons, List.countP_nil,
          List.length_append, List.length_cons, List.length_nil,
          Req.isPut_get, Req.isGet_get, Bool.false_eq_true,
          eq_self_iff_true, if_false, if_true]
        refine ⟨by omega, by omega, by omega⟩
    · dsimp only
      refine ⟨by omega, by omega, by omega⟩

theorem getCount_map_bump (m : List (String × Nat)) (key : String)
    (h : m.any (fun p => p.1 == key) = true) :
    getCount (m.map (fun p => if p.1 == key then (p.1, p.2 + 1) else p)) key
      = getCount m key + 1 := by
  induction m with
  | nil => simp at h
  | cons p rest ih =>
    by_cases hp : (p.1 == key) = true
    · simp only [List.map_cons, if_pos hp]
      unfold getCount
      rw [List.find?_cons_of_pos (p := fun q : String × Nat => q.1 == key)
          (a := (p.1, p.2 + 1)) _ hp,
        List.find?_cons_of_pos (p := fun q : String × Nat => q.1 == key) _ hp]
    · have hrest : rest.any (fun q => q.1 == key) = true := by
        simp only [List.any_cons] at h
        rcases Bool.or_eq_true_iff.mp h with hh | hh
        · exact absurd hh hp
        · exact hh
      simp only [List.map_cons, if_neg hp]
      unfold getCount
      rw [List.find?_cons_of_neg (p := fun q : String × Nat => q.1 == key) _ hp,
        List.find?_cons_of_neg (p := fun q : String × Nat => q.1 == key) _ hp]
      exact ih hrest

theorem getCount_eq_zero_of_absent (m : List (String × Nat)) (key : String)
    (h : m.any (fun p => p.1 == key) = false) : getCount m key = 0 := by
  unfold getCount
  rw [List.find?_eq_none.mpr (List.any_eq_false.mp h)]

/-- Incrementing a counter key adds exactly one to its value. -/
theorem getCount_bumpCount_self (m : List (String × Nat)) (key : String) :
    getCount (bumpCount m key) key = getCount m key + 1 := by
  unfold bumpCount
  cases h : m.any (fun p => p.1 == key) with
  | true =>
    rw [if_pos rfl]
    exact getCount_map_bump m key h
  | false =>
    rw [if_neg (by simp [h])]
    rw [getCount_eq_zero_of_absent m key h]
    unfold getCount
    rw [List.find?_append, List.find?_eq_none.mpr (List.any_eq_false.mp h)]
    simp

/-- C5: N calls to `trackRequest` with the same endpoint add exactly N to
that endpoint's counter and to the total-request counter.  Mutation is
synchronous within one event-loop turn, so interleaved invocations are
modelled as a sequential fold and no increment is lost. -/
theorem trackRequest_adds_n (a : Analytics) (endpoint : String)
    (calls : List (HttpReq × String)) :
    getCount
      ((calls.foldl (fun s c => trackRequest s c.1 endpoint c.2)
        a).requestsByEndpoint) endpoint
      = getCount a.requestsByEndpoint endpoint + calls.length ∧
    (calls.foldl (fun s c => trackRequest s c.1 endpoint c.2)
        a).totalRequests
      = a.totalRequests + calls.length := by
  induction calls generalizing a with
  | nil => simp
  | cons c rest ih =>
    simp only [List.foldl_cons, List.length_cons]
    obtain ⟨h1, h2⟩ := ih (trackRequest a c.1 endpoint c.2)
    constructor
    · rw [h1]
      have hstep : (trackRequest a c.1 endpoint c.2).requestsByEndpoint
          = bumpCount a.requestsByEndpoint endpoint := rfl
      rw [hstep, getCount_bumpCount_self]
      omega
    · rw [h2]
      have hstep : (trackRequest a c.1 endpoint c.2).totalRequests
          = a.totalRequests + 1 := rfl
      rw [hstep]
      omega

theorem take_append_take {α : Type} (x l : List α) (n : Nat) :
    (x ++ l.take n).take n = (x ++ l).take n := by
  rw [List.take_append_eq_append_take, List.take_append_eq_append_take,
    List.take_take]
  have : min (n - x.length) n = n - x.length :=
    Nat.min_eq_left (Nat.sub_le n x.length)
  rw [this]

/-- One `trackToolCall` step sends a ring of at most 100 entries to the
first 100 entries of the ring with the new entry at the front. -/
theorem trackToolCall_ring_step (a : Analytics)
    (toolName clientIp now : String) (h : a.recentToolCalls.length ≤ 100) :
    (trackToolCall a toolName clientIp now).recentToolCalls
      = ((⟨toolName, now, clientIp⟩ : ToolCallEntry)
          :: a.recentToolCalls).take 100 := by
  show (if ((⟨toolName, now, clientIp⟩ : ToolCallEntry)
      :: a.recentToolCalls).length > 100 then
    ((⟨toolName, now, clientIp⟩ : ToolCallEntry)
      :: a.recentToolCalls).dropLast
  else
    (⟨toolName, now, clientIp⟩ : ToolCallEntry) :: a.recentToolCalls) = _
  by_cases hlen : ((⟨toolName, now, clientIp⟩ : ToolCallEntry)
      :: a.recentToolCalls).length > 100
  · rw [if_pos hlen, List.dropLast_eq_take]
    congr 1
    simp only [List.length_cons] at hlen ⊢
    omega
  · rw [if_neg hlen]
    rw [List.take_of_length_le]
    simp only [List.length_cons] at hlen ⊢
    omega

/-- C7: the recent-tool-call ring invariant.  Starting from a ring of at
most 100 entries, after any sequence of `trackToolCall` invocations the
ring equals the first 100 entries of the new calls (newest first) prepended
to the old ring — so it is capped at 100, holds only the most recent calls
with the newest first — and once at least 100 entries have accumulated its
length is exactly 100 (in particular after 101 calls from an empty ring). -/
theorem trackToolCall_ring (a : Analytics)
    (calls : List (String × String × String))
    (h : a.recentToolCalls.length ≤ 100) :
    (calls.foldl (fun s c => trackToolCall s c.1 c.2.1 c.2.2)
        a).recentToolCalls
      = ((calls.map toolEntry).reverse ++ a.recentToolCalls).take 100 ∧
    (calls.foldl (fun s c => trackToolCall s c.1 c.2.1 c.2.2)
        a).recentToolCalls.length ≤ 100 ∧
    (100 ≤ calls.length + a.recentToolCalls.length →
      (calls.foldl (fun s c => trackToolCall s c.1 c.2.1 c.2.2)
        a).recentToolCalls.length = 100) := by
  have main : ∀ (cs : List (String × String × String)) (b : Analytics),
      b.recentToolCalls.length ≤ 100 →
      (cs.foldl (fun s c => trackToolCall s c.1 c.2.1 c.2.2)
          b).recentToolCalls
        = ((cs.map toolEntry).reverse ++ b.recentToolCalls).take 100 := by
    intro cs
    induction cs with
    | nil =>
      intro b hb
      simp only [List.foldl_nil, List.map_nil, List.reverse_nil,
        List.nil_append]
      rw [List.take_of_length_le hb]
    | cons c rest ih =>
      intro b hb
      simp only [List.foldl_cons, List.map_cons, List.reverse_cons,
        List.append_assoc]
      have hstep := trackToolCall_ring_step b c.1 c.2.1 c.2.2 hb
      have hblen : (trackToolCall b c.1 c.2.1 c.2.2).recentToolCalls.length
          ≤ 100 := by
        rw [hstep]
        simp [List.length_take]
      have ihh := ih (trackToolCall b c.1 c.2.1 c.2.2) hblen
      rw [ihh, hstep]
      rw [take_append_take]
      simp only [List.singleton_append]
      rfl
  have hmain := main calls a h
  refine ⟨hmain, ?_, ?_⟩
  · rw [hmain]
    simp [List.length_take]
  · intro htotal
    rw [hmain]
    simp only [List.length_take, List.length_append, List.length_reverse,
      List.length_map]
    omega

/-- Witness for C7: 101 identical tool calls recorded from an empty ring
leave the ring with exactly 100 entries. -/
theorem trackToolCall_ring_witness :
    ((List.replicate 101
        ("create_note", "1.2.3.4", "2026-01-01T00:00:00Z")).foldl
        (fun s c => trackToolCall s c.1 c.2.1 c.2.2)
        (defaultAnalytics "t0")).recentToolCalls.length = 100 :=
  (trackToolCall_ring (defaultAnalytics "t0")
      (List.replicate 101 ("create_note", "1.2.3.4", "2026-01-01T00:00:00Z"))
      (by decide)).2.2 (by decide)

theorem sortedTake_facts {α : Type} (le : α → α → Bool)
    (htrans : ∀ a b c, le a b = true → le b c = true → le a c = true)
    (htotal : ∀ a b, (le a b || le b a) = true)
    (l : List α) (n : Nat) :
    ((l.mergeSort le).take n).Pairwise (fun a b => le a b = true) ∧
    (((l.mergeSort le).take n) ++ ((l.mergeSort le).drop n)).Perm l ∧
    (∀ x ∈ (l.mergeSort le).drop n, ∀ y ∈ (l.mergeSort le).take n,
      le y x = true) := by
  have hs := List.sorted_mergeSort htrans htotal l
  refine ⟨List.Pairwise.sublist (List.take_sublist n _) hs, ?_, ?_⟩
  · rw [List.take_append_drop]
    exact List.mergeSort_perm l le
  · have hsplit : List.Pairwise (fun a b => le a b = true)
        (((l.mergeSort le).take n) ++ ((l.mergeSort le).drop n)) := by
      rw [List.take_append_drop]
      exact hs
    obtain ⟨-, -, hcross⟩ := List.pairwise_append.mp hsplit
    intro x hx y hy
    exact hcross y hy x hx

/-- C6: the summary returns at most 20 client-IP entries — the top 20 by
descending count — at most 24 hourly buckets, which are the most recent
ones in chronological (most-recent-last) order, and the tool breakdown
sorted by descending count. -/
theorem summarize_bounds (a : Analytics) :
    (summarize a).clientsByIp.length ≤ 20 ∧
    (summarize a).clientsByIp.Pairwise (fun x y => y.2 ≤ x.2) ∧
    (∃ rest, ((summarize a).clientsByIp ++ rest).Perm a.clientsByIp ∧
      ∀ x ∈ rest, ∀ y ∈ (summarize a).clientsByIp, x.2 ≤ y.2) ∧
    (summarize a).hourlyRequests.length ≤ 24 ∧
    (summarize a).hourlyRequests.Pairwise (fun x y => x.1 ≤ y.1) ∧
    (∃ rest, ((summarize a).hourlyRequests ++ rest).Perm a.hourlyRequests ∧
      ∀ x ∈ rest, ∀ y ∈ (summarize a).hourlyRequests, x.1 ≤ y.1) ∧
    (summarize a).byTool.Pairwise (fun x y => y.2 ≤ x.2) := by
  have hct : ∀ x y z : String × Nat, byCountDesc x y = true →
      byCountDesc y z = true → byCountDesc x z = true := by
    intro x y z hxy hyz
    simp only [byCountDesc, decide_eq_true_eq] at hxy hyz ⊢
    omega
  have hco : ∀ x y : String × Nat,
      (byCountDesc x y || byCountDesc y x) = true := by
    intro x y
    simp only [byCountDesc, Bool.or_eq_true, decide_eq_true_eq]
    omega
  have hkt : ∀ x y z : String × Nat, byKeyDesc x y = true →
      byKeyDesc y z = true → byKeyDesc x z = true := by
    intro x y z hxy hyz
    simp only [byKeyDesc, decide_eq_true_eq] at hxy hyz ⊢
    exact le_trans hyz hxy
  have hko : ∀ x y : String × Nat,
      (byKeyDesc x y || byKeyDesc y x) = true := by
    intro x y
    simp only [byKeyDesc, Bool.or_eq_true, decide_eq_true_eq]
    exact le_total y.1 x.1
  obtain ⟨hps, hperm, hcross⟩ :=
    sortedTake_facts byCountDesc hct hco a.clientsByIp 20
  obtain ⟨hps2, hperm2, hcross2⟩ :=
    sortedTake_facts byKeyDesc hkt hko a.hourlyRequests 24
  have hcf : (summarize a).clientsByIp
      = (a.clientsByIp.mergeSort byCountDesc).take 20 := rfl
  have hhf : (summarize a).hourlyRequests
      = ((a.hourlyRequests.mergeSort byKeyDesc).take 24).reverse := rfl
  have htf : (summarize a).byTool = a.toolCalls.mergeSort byCountDesc := rfl
  refine ⟨?_, ?_, ?_, ?_, ?_, ?_, ?_⟩
  · rw [hcf]
    simp [List.length_take]
  · rw [hcf]
    exact hps.imp (fun hab => by
      simpa [byCountDesc, decide_eq_true_eq] using hab)
  · refine ⟨(a.clientsByIp.mergeSort byCountDesc).drop 20, ?_, ?_⟩
    · rw [hcf]
      exact hperm
    · intro x hx y hy
      rw [hcf] at hy
      have := hcross x hx y hy
      simpa [byCountDesc, decide_eq_true_eq] using this
  · rw [hhf]
    simp [List.length_take]
  · rw [hhf, List.pairwise_reverse]
    exact hps2.imp (fun hab => by
      simpa [byKeyDesc, decide_eq_true_eq] using hab)
  · refine ⟨(a.hourlyRequests.mergeSort byKeyDesc).drop 24, ?_, ?_⟩
    · rw [hhf]
      refine List.Perm.trans ?_ hperm2
      exact List.Perm.append_right _
        (List.reverse_perm ((a.hourlyRequests.mergeSort byKeyDesc).take 24))
    · intro x hx y hy
      rw [hhf, List.mem_reverse] at hy
      have := hcross2 x hx y hy
      simpa [byKeyDesc, decide_eq_true_eq] using this
  · rw [htf]
    exact (List.sorted_mergeSort hct hco a.toolCalls).imp (fun hab => by
      simpa [byCountDesc, decide_eq_true_eq] using hab)

/-- C8: analytics persistence failures are never surfaced: a failing
snapshot write is swallowed (the save returns normally for every outcome),
and a missing, unreadable or corrupt snapshot at startup yields the
zero-valued default state instead of an error. -/
theorem analytics_persistence_swallowed (startTime : String) :
    (∀ w : Except String Unit, saveAnalytics w = Except.ok ()) ∧
    loadAnalytics startTime SnapshotRead.absent
      = defaultAnalytics startTime ∧
    (∀ err, loadAnalytics startTime (SnapshotRead.failure err)
      = defaultAnalytics startTime) := by
  refine ⟨fun w => ?_, rfl, fun err => rfl⟩
  cases w <;> rfl
